import Mathlib

/-!
Verification of the contact-form validation and submission flow of the
Red Dawn website (the `FormHandler` module, full-featured revision with
the Telegram/phone toggle, lazy reCAPTCHA loading and the real endpoint).

Strings are modelled as Lean `String`s; every character class used by the
form is in the Basic Multilingual Plane, where the JavaScript UTF-16
`length` agrees with the codepoint count, so `String.length` is a faithful
model of `.length` on all inputs the validators distinguish.
-/

namespace FormHandler

/-! ## Configuration constants (`FormHandler.config`) -/

def minAge : Int := 21

def maxAge : Int := 70

def minNameLength : Nat := 2

def maxNameLength : Nat := 100

def minTelegramLength : Nat := 5

def maxTelegramLength : Nat := 32

/-! ## JavaScript string / number primitives used by the module -/

/-- Characters matched by the JavaScript whitespace class (`\s`, and the
set trimmed by `String.prototype.trim` and skipped by `parseInt`). -/
def jsWhitespace (c : Char) : Bool :=
  c = ' ' || c = '\t' || c = '\n' || c = '\r' || c.toNat = 0x0b || c.toNat = 0x0c ||
  c.toNat = 0xa0 || c.toNat = 0x1680 || (0x2000 ≤ c.toNat && c.toNat ≤ 0x200a) ||
  c.toNat = 0x2028 || c.toNat = 0x2029 || c.toNat = 0x202f || c.toNat = 0x205f ||
  c.toNat = 0x3000 || c.toNat = 0xfeff

/-- `String.prototype.trim`: drop JavaScript whitespace at both ends. -/
def jsTrim (s : String) : String :=
  String.mk (((s.data.dropWhile jsWhitespace).reverse.dropWhile jsWhitespace).reverse)

/-- Inclusive character-range test, the building block of the regex
character classes below. -/
def charBetween (lo hi c : Char) : Bool :=
  lo ≤ c && c ≤ hi

/-- Value of a character as a digit in radix `r` (`r` is 10 or 16 here),
`none` if the character is not a digit of that radix. Codepoint offsets:
48 is `0`, 87 is `a` minus ten, 55 is `A` minus ten. -/
def digitValue (r : Nat) (c : Char) : Option Nat :=
  let v : Option Nat :=
    if charBetween '0' '9' c then some (c.toNat - 48)
    else if charBetween 'a' 'f' c then some (c.toNat - 87)
    else if charBetween 'A' 'F' c then some (c.toNat - 55)
    else none
  match v with
  | some n => if n < r then some n else none
  | none => none

/-- Longest prefix of `cs` consisting of radix-`r` digits, as their values. -/
def leadingDigits (r : Nat) (cs : List Char) : List Nat :=
  match cs with
  | [] => []
  | c :: rest =>
    match digitValue r c with
    | some n => n :: leadingDigits r rest
    | none => []

/-- `parseInt(s)` with the radix argument omitted, on a list of characters:
skip leading whitespace, read an optional sign, detect a `0x`/`0X` hex
prefix, then read the longest prefix of digits of the chosen radix;
`none` models a `NaN` result (no digits). JavaScript returns a float, but
every input the form distinguishes yields an exact integer. -/
def jsParseIntList (cs : List Char) : Option Int :=
  let cs := cs.dropWhile jsWhitespace
  let (sign, cs) : Int × List Char :=
    match cs with
    | '-' :: rest => (-1, rest)
    | '+' :: rest => (1, rest)
    | _ => (1, cs)
  let (radix, cs) : Nat × List Char :=
    match cs with
    | '0' :: 'x' :: rest => (16, rest)
    | '0' :: 'X' :: rest => (16, rest)
    | _ => (10, cs)
  match leadingDigits radix cs with
  | [] => none
  | ds => some (sign * (ds.foldl (fun a d => a * radix + d) 0 : Nat))

/-- `parseInt(s)` (radix omitted) on a string. -/
def jsParseInt (s : String) : Option Int :=
  jsParseIntList s.data

/-- `l.indexOf(c)` with JavaScript semantics: `-1` when absent. -/
def jsIndexOf (l : List Char) (c : Char) : Int :=
  if c ∈ l then (l.indexOf c : Int) else -1

/-- `a || b` on an optional string against a default, with JavaScript
falsiness: the empty string counts as absent. -/
def jsOr (a : Option String) (b : String) : String :=
  match a with
  | some s => if s = "" then b else s
  | none => b

/-! ## Field validators (pure functions returning an error message or `null`) -/

/-- Character class of the name regex `[a-zA-Zа-яА-ЯёЁ\s]`. -/
def nameChar (c : Char) : Bool :=
  charBetween 'a' 'z' c || charBetween 'A' 'Z' c ||
  charBetween 'а' 'я' c || charBetween 'А' 'Я' c ||
  c = 'ё' || c = 'Ё' || jsWhitespace c

/-- `FormHandler.validateName`: regex `^[a-zA-Zа-яА-ЯёЁ\s]+$`, then the
max-length check, then the min-length check. -/
def validateName (name : String) : Option String :=
  if ¬ (name ≠ "" ∧ name.data.all nameChar) then
    some "Имя может содержать только буквы (кириллица или латиница) и пробелы."
  else if name.length > maxNameLength then
    some "Имя не может быть длиннее 100 символов."
  else if name.length < minNameLength then
    some "Имя должно быть не короче 2 символов."
  else
    none

/-- `FormHandler.validateAge`: `parseInt` the input, reject `NaN` and
negatives, then the business-rule bounds `minAge`/`maxAge`. -/
def validateAge (age : String) : Option String :=
  match jsParseInt age with
  | none => some "Возраст должен быть положительным числом."
  | some numAge =>
    if numAge < 0 then some "Возраст должен быть положительным числом."
    else if numAge < minAge then some "Набор в команду строго от 21 года."
    else if numAge > maxAge then some "Вряд ли вы потянете физически всю эту нагрузку..."
    else none

/-- Character class of the telegram regex `[a-zA-Z0-9_]`. -/
def telegramChar (c : Char) : Bool :=
  charBetween 'a' 'z' c || charBetween 'A' 'Z' c || charBetween '0' '9' c || c = '_'

/-- The `cleanValue` computation of `validateTelegram`: strip one leading
`@` when present (`telegram.startsWith('@') ? telegram.slice(1) :
telegram`). -/
def cleanTelegram (telegram : String) : String :=
  match telegram.data with
  | '@' :: rest => String.mk rest
  | _ => telegram

/-- `FormHandler.validateTelegram`: strip one leading `@`, reject any
remaining `@`, regex `^[a-zA-Z0-9_]+$`, then the length bounds. -/
def validateTelegram (telegram : String) : Option String :=
  if (cleanTelegram telegram).data.count '@' > 0 then
    some "Telegram username не может содержать символ @ внутри."
  else if ¬ (cleanTelegram telegram ≠ "" ∧ (cleanTelegram telegram).data.all telegramChar) then
    some "Telegram username может содержать только буквы, цифры и подчеркивания."
  else if (cleanTelegram telegram).length < minTelegramLength ∨
      (cleanTelegram telegram).length > maxTelegramLength then
    some "Telegram username должен быть от 5 до 32 символов."
  else
    none

/-- Whole-string match of the phone regex `^\+?\d+$`: an optional leading
`+`, then at least one digit, nothing else. -/
def phoneMatch (phone : String) : Bool :=
  match phone.data with
  | [] => false
  | c :: rest =>
    if c = '+' then rest ≠ [] && rest.all Char.isDigit
    else (c :: rest).all Char.isDigit

/-- `FormHandler.validatePhone`: regex `^\+?\d+$`, then length in `[11, 16]`
(the length counts the whole string, a leading `+` included). -/
def validatePhone (phone : String) : Option String :=
  if ¬ phoneMatch phone then
    some "Номер телефона может содержать только цифры и символ + в начале."
  else if phone.length < 11 then
    some "Номер телефона слишком короткий."
  else if phone.length > 16 then
    some "Номер телефона слишком длинный."
  else
    none

/-- First step of `formatPhoneInput`:
`value.replace(/[^\d+]/g, '')` — keep only digits and `+`. -/
def phoneCleaned1 (value : String) : List Char :=
  value.data.filter (fun c => c.isDigit || c = '+')

/-- Second step of `formatPhoneInput`: if `cleaned.indexOf('+') > 0`,
`cleaned.replace(/\+/g, '')` — a `+` beyond position 0 drops every `+`. -/
def phoneCleaned2 (cleaned : List Char) : List Char :=
  if jsIndexOf cleaned '+' > 0 then cleaned.filter (fun c => c ≠ '+') else cleaned

/-- Third step of `formatPhoneInput`: if more than one `+` remains,
`'+' + cleaned.replace(/\+/g, '')` — keep a single leading `+`. -/
def phoneCleaned3 (cleaned : List Char) : List Char :=
  if cleaned.count '+' > 1 then '+' :: cleaned.filter (fun c => c ≠ '+') else cleaned

/-- `FormHandler.formatPhoneInput` on the field's value: the three
successive reassignments of `cleaned`, then write the result back. -/
def formatPhoneInput (value : String) : String :=
  String.mk (phoneCleaned3 (phoneCleaned2 (phoneCleaned1 value)))

/-! ## DOM state model

`Elements` models the parts of the DOM the `FormHandler` reads or writes:
the cached input values, the checked `contactType` radio, the
`required`/`hidden` flags toggled by `toggleContactField`, the per-field
inline error displays (`showError`/`hideError`; their cosmetic border
classes are not modelled), the submit button's disabled flag and label,
the visibility of the form and of the success/error panels, the error
panel's message text, and the `animate-shake` class on the form. -/

inductive ContactType where
  | telegram
  | phone
deriving Repr, DecidableEq

inductive BtnLabel where
  | original
  | loading
deriving Repr, DecidableEq

structure Elements where
  nameValue : String
  ageValue : String
  telegramValue : String
  phoneValue : String
  experienceValue : String
  contactType : ContactType
  telegramRequired : Bool
  phoneRequired : Bool
  telegramFieldHidden : Bool
  phoneFieldHidden : Bool
  nameErrorShown : Bool
  ageErrorShown : Bool
  telegramErrorShown : Bool
  phoneErrorShown : Bool
  submitDisabled : Bool
  submitLabel : BtnLabel
  formHidden : Bool
  successHidden : Bool
  errorHidden : Bool
  errorText : String
  shakeClass : Bool
deriving Repr, DecidableEq

/-- The callback a `setTimeout` in the flow leaves pending: removal of the
shake class after a failed validation, the success-panel reset, or the
error-panel reset. -/
inductive TimeoutCB where
  | removeShake
  | successReset
  | errorReset
deriving Repr, DecidableEq

/-- `FormHandler.resetSubmitButton`: re-enable the button and restore its
original label. -/
def resetSubmitButton (st : Elements) : Elements :=
  { st with submitDisabled := false, submitLabel := .original }

/-- `FormHandler.toggleContactField`: read the checked `contactType` radio,
show/require the matching field, hide/unrequire the other one, and
`hideError` the input that is being hidden. (`updateContactTypeStyles`
only touches cosmetic CSS classes and is outside the model.) -/
def toggleContactField (st : Elements) : Elements :=
  match st.contactType with
  | .telegram =>
    { st with telegramFieldHidden := false, phoneFieldHidden := true,
              telegramRequired := true, phoneRequired := false,
              phoneErrorShown := false }
  | .phone =>
    { st with telegramFieldHidden := true, phoneFieldHidden := false,
              telegramRequired := false, phoneRequired := true,
              telegramErrorShown := false }

/-- Modelled from the spec: the HTML markup of the form is not among the
source files, so the defaults `form.reset()` restores are taken from the
spec — text inputs default to empty, and the default contact-method view
is Telegram ("restores the default contact-method view"; the code's own
comment says the toggle returns to Telegram). The experience radio set is
opaque to validation; its default value is modelled as the constant
below. -/
def defaultExperienceValue : String := ""

/-- Modelled from the spec: `form.reset()` restores every field to its
HTML default (see `defaultExperienceValue` for the provenance of the
defaults). -/
def formReset (st : Elements) : Elements :=
  { st with nameValue := "", ageValue := "", telegramValue := "", phoneValue := "",
            experienceValue := defaultExperienceValue, contactType := .telegram }

/-- Immediate effect of `FormHandler.showSuccess`: hide the form, show the
success panel (a `successReset` timeout is scheduled for
`successDisplayTime` later). -/
def showSuccess (st : Elements) : Elements :=
  { st with formHidden := true, successHidden := false }

/-- The `setTimeout` callback of `FormHandler.showSuccess`: hide the
success panel, reset the form, reset the submit button, hide all four
field errors, run `toggleContactField` on the restored default radio, and
show the form again. -/
def showSuccessTimeout (st : Elements) : Elements :=
  let st := { st with successHidden := true }
  let st := formReset st
  let st := resetSubmitButton st
  let st := { st with nameErrorShown := false, ageErrorShown := false,
                      telegramErrorShown := false, phoneErrorShown := false }
  let st := toggleContactField st
  { st with formHidden := false }

/-- Immediate effect of `FormHandler.showFormError`: write the message
into the error panel, hide the form, show the panel (an `errorReset`
timeout is scheduled for `errorDisplayTime` later). -/
def showFormError (message : String) (st : Elements) : Elements :=
  { st with errorText := message, formHidden := true, errorHidden := false }

/-- The `setTimeout` callback of `FormHandler.showFormError`: hide the
error panel, reset the submit button, show the form again. -/
def showFormErrorTimeout (st : Elements) : Elements :=
  let st := { st with errorHidden := true }
  let st := resetSubmitButton st
  { st with formHidden := false }

/-- Run a pending `setTimeout` callback on the state. -/
def runTimeout : TimeoutCB → Elements → Elements
  | .removeShake, st => { st with shakeClass := false }
  | .successReset, st => showSuccessTimeout st
  | .errorReset, st => showFormErrorTimeout st

/-! ## Submission client -/

/-- The JSON payload `submitForm` builds (`formData`). The `timestamp`
field — `new Date().toISOString()`, real wall-clock time — is outside the
model. `age` is the `parseInt` of the age input (`none` models `NaN`). -/
structure Payload where
  name : String
  age : Option Int
  telegram : Option String
  phone : Option String
  contactTypeSent : ContactType
  experience : String
  recaptchaToken : Option String
deriving Repr, DecidableEq

/-- The `formData` object of `FormHandler.submitForm`: trimmed name,
`parseInt`-ed age, experience, token; then, by the checked radio, either
the trimmed telegram value with a `@` prepended when missing, or the
trimmed phone value. -/
def buildPayload (recaptchaToken : Option String) (st : Elements) : Payload :=
  let base : Payload :=
    { name := jsTrim st.nameValue, age := jsParseInt st.ageValue,
      telegram := none, phone := none, contactTypeSent := st.contactType,
      experience := st.experienceValue, recaptchaToken := recaptchaToken }
  match st.contactType with
  | .telegram =>
    let telegramValue := jsTrim st.telegramValue
    let telegramValue :=
      match telegramValue.data with
      | '@' :: _ => telegramValue
      | _ => String.mk ('@' :: telegramValue.data)
    { base with telegram := some telegramValue }
  | .phone => { base with phone := some (jsTrim st.phoneValue) }

/-- A parsed JSON response body: its `status` field, and the optional
`message` and `detail` fields. -/
structure ResponseBody where
  jsonStatus : String
  message : Option String
  detail : Option String
deriving Repr, DecidableEq

/-- Outcome of the `fetch` POST as `submitForm` observes it: either an
HTTP response (`ok` is the 2xx flag, with the parsed JSON body), or a
rejected promise (network failure) carrying `error.message`. -/
inductive FetchOutcome where
  | response (ok : Bool) (body : ResponseBody)
  | networkError (message : Option String)
deriving Repr, DecidableEq

/-- Result of `submitForm`: the new DOM state, the pending timeout (if
any), and the payload that was POSTed. -/
structure SubmitFormResult where
  state : Elements
  pending : Option TimeoutCB
  payload : Payload
deriving Repr, DecidableEq

/-- `FormHandler.submitForm`: build `formData`, POST it, then
- on a non-2xx response, throw `errorData.detail || 'Ошибка сервера'`,
  caught below;
- on a 2xx response with `data.status === 'ok'`, `showSuccess()`;
- on a 2xx response with any other status,
  `showFormError(data.message || 'Проверка капчи не пройдена.')` and
  `resetSubmitButton()`;
- on a rejected fetch (and for the throw above),
  `showFormError(error.message || 'Ошибка соединения с сервером.')` and
  `resetSubmitButton()`. -/
def submitForm (recaptchaToken : Option String) (outcome : FetchOutcome)
    (st : Elements) : SubmitFormResult :=
  let payload := buildPayload recaptchaToken st
  match outcome with
  | .networkError msg =>
    { state := resetSubmitButton (showFormError (jsOr msg "Ошибка соединения с сервером.") st),
      pending := some .errorReset, payload := payload }
  | .response ok body =>
    if ¬ ok then
      let thrown := jsOr body.detail "Ошибка сервера"
      { state := resetSubmitButton (showFormError (jsOr (some thrown) "Ошибка соединения с сервером.") st),
        pending := some .errorReset, payload := payload }
    else if body.jsonStatus = "ok" then
      { state := showSuccess st, pending := some .successReset, payload := payload }
    else
      { state := resetSubmitButton (showFormError (jsOr body.message "Проверка капчи не пройдена.") st),
        pending := some .errorReset, payload := payload }

/-! ## Submit handler -/

/-- Environment of one submission attempt: whether the `grecaptcha` global
is defined, the outcome of `grecaptcha.execute` (token or rejection) when
it is, and the outcome of the `fetch` when it happens. -/
structure Env where
  grecaptchaDefined : Bool
  recaptchaResult : Except String String
  fetchOutcome : FetchOutcome
deriving Repr

/-- Error of the contact field selected by the checked `contactType`
radio: the unselected field's validator is not run. -/
def contactError (st : Elements) : Option String :=
  match st.contactType with
  | .telegram => validateTelegram (jsTrim st.telegramValue)
  | .phone => validatePhone (jsTrim st.phoneValue)

/-- The `hasErrors` flag `handleSubmit` accumulates: name, age, the
selected contact field, plus the extra `age > maxAge` guard on the raw
`parseInt` of the age input. -/
def submitHasErrors (st : Elements) : Bool :=
  (validateName (jsTrim st.nameValue)).isSome ||
  (validateAge st.ageValue).isSome ||
  (contactError st).isSome ||
  (match jsParseInt st.ageValue with
   | some a => decide (a > maxAge)
   | none => false)

/-- Net effect of `handleSubmit`'s validation phase on the four inline
error displays: it first `hideError`s all four fields, then `showError`s
each field whose validator returned a message — only the selected contact
field is validated. Each flag therefore ends up `true` exactly when that
field was validated and failed (the input values themselves are
untouched, so the interleaving of checks and marks collapses to one
update). -/
def validationMark (st : Elements) : Elements :=
  { st with
    nameErrorShown := (validateName (jsTrim st.nameValue)).isSome,
    ageErrorShown := (validateAge st.ageValue).isSome,
    telegramErrorShown :=
      (match st.contactType with
       | .telegram => (validateTelegram (jsTrim st.telegramValue)).isSome
       | .phone => false),
    phoneErrorShown :=
      (match st.contactType with
       | .phone => (validatePhone (jsTrim st.phoneValue)).isSome
       | .telegram => false) }

/-- Result of `handleSubmit`: the new DOM state, the pending timeout,
whether `grecaptcha.execute` ran, whether the endpoint was POSTed, and
the payload when it was. -/
structure SubmitOutcome where
  state : Elements
  pending : Option TimeoutCB
  recaptchaExecuted : Bool
  networkCalled : Bool
  payload : Option Payload
deriving Repr, DecidableEq

/-- `FormHandler.handleSubmit`: hide previous errors, validate every
active field (marking failures), and
- if any error: add the shake class (scheduling its removal) and return —
  the submit button is never touched, `grecaptcha` is never executed, no
  request is sent;
- otherwise: disable the submit button, swap its label to the loading
  indicator, then if `grecaptcha` is defined execute it and either
  `submitForm(token)` or, on rejection, show the captcha error and reset
  the button without any request; if `grecaptcha` is undefined,
  `submitForm(null)` directly. -/
def handleSubmit (env : Env) (st : Elements) : SubmitOutcome :=
  let st := validationMark st
  if submitHasErrors st then
    { state := { st with shakeClass := true }, pending := some .removeShake,
      recaptchaExecuted := false, networkCalled := false, payload := none }
  else
    let st := { st with submitDisabled := true, submitLabel := .loading }
    if env.grecaptchaDefined then
      match env.recaptchaResult with
      | .ok token =>
        let r := submitForm (some token) env.fetchOutcome st
        { state := r.state, pending := r.pending, recaptchaExecuted := true,
          networkCalled := true, payload := some r.payload }
      | .error _ =>
        let st := showFormError "Ошибка проверки капчи. Попробуй обновить страницу." st
        let st := resetSubmitButton st
        { state := st, pending := some .errorReset, recaptchaExecuted := true,
          networkCalled := false, payload := none }
    else
      let r := submitForm none env.fetchOutcome st
      { state := r.state, pending := r.pending, recaptchaExecuted := false,
        networkCalled := true, payload := some r.payload }

/-! ## Concrete fixtures used to instantiate the theorems -/

/-- A DOM state whose inputs pass every validator (Telegram contact). -/
def sampleValid : Elements :=
  { nameValue := "Ivan Petrov", ageValue := "25", telegramValue := "john_doe99",
    phoneValue := "+79001234567", experienceValue := "veteran",
    contactType := ContactType.telegram, telegramRequired := true, phoneRequired := false,
    telegramFieldHidden := false, phoneFieldHidden := true,
    nameErrorShown := false, ageErrorShown := false, telegramErrorShown := false,
    phoneErrorShown := false, submitDisabled := false, submitLabel := BtnLabel.original,
    formHidden := false, successHidden := true, errorHidden := true,
    errorText := "", shakeClass := false }

/-- The same state with the phone contact method selected. -/
def samplePhoneContact : Elements :=
  { sampleValid with
    contactType := ContactType.phone, telegramRequired := false,
    phoneRequired := true, telegramFieldHidden := true, phoneFieldHidden := false }

/-- The valid state with an under-age input. -/
def sampleInvalidAge : Elements :=
  { sampleValid with ageValue := "20" }

/-- A 2xx response whose body reports success. -/
def okFetch : FetchOutcome :=
  .response true { jsonStatus := "ok", message := none, detail := none }

/-- Environment where the `grecaptcha` global never loaded. -/
def envNoCaptcha : Env :=
  { grecaptchaDefined := false, recaptchaResult := .ok "tok", fetchOutcome := okFetch }

/-- Environment where `grecaptcha` is loaded but `execute` rejects. -/
def envCaptchaFail : Env :=
  { grecaptchaDefined := true, recaptchaResult := .error "timeout", fetchOutcome := okFetch }

/-- A success response body. -/
def bodyOk : ResponseBody :=
  { jsonStatus := "ok", message := none, detail := none }

/-- A rejection response body carrying a server message. -/
def bodyRejected : ResponseBody :=
  { jsonStatus := "error", message := some "X", detail := some "X" }

end FormHandler


namespace FormHandler

/-! ## Helper lemmas -/

lemma phoneMatch_iff (s : String) :
    phoneMatch s = true ↔
      ((s.data ≠ [] ∧ s.data.all Char.isDigit = true) ∨
       (∃ rest, s.data = '+' :: rest ∧ rest ≠ [] ∧ rest.all Char.isDigit = true)) := by
  cases h : s.data with
  | nil => simp [phoneMatch, h]
  | cons c t =>
    have hm : phoneMatch s =
        (if c = '+' then (decide (t ≠ []) && t.all Char.isDigit)
         else (c :: t).all Char.isDigit) := by
      unfold phoneMatch
      rw [h]
    by_cases hc : c = '+'
    · subst hc
      rw [hm, if_pos rfl]
      constructor
      · intro hb
        simp only [Bool.and_eq_true, decide_eq_true_eq] at hb
        exact Or.inr ⟨t, rfl, hb.1, hb.2⟩
      · rintro (⟨-, hall⟩ | ⟨rest, hrt, hne, hall⟩)
        · simp only [List.all_cons, Bool.and_eq_true] at hall
          exact absurd hall.1 (by decide)
        · simp only [List.cons.injEq, true_and] at hrt
          subst hrt
          simp [hne, hall]
    · rw [hm, if_neg hc]
      constructor
      · intro hb
        exact Or.inl ⟨by simp, hb⟩
      · rintro (⟨-, hall⟩ | ⟨rest, hrt, -, -⟩)
        · exact hall
        · injection hrt with h1 h2
          exact absurd h1 hc

/-! ## Claims C1 - C3 -/

/-- C1: `validateAge` returns `null` exactly when the input `parseInt`s to
an integer in the inclusive range `[21, 70]`; it returns an error string
for `20`, for `71`, for non-numeric input, and for negative values. It is
a total function of the input string, so no exception is ever thrown. -/
theorem validateAge_none_iff_in_range :
    (∀ s : String, validateAge s = none ↔
      ∃ n : Int, jsParseInt s = some n ∧ 21 ≤ n ∧ n ≤ 70) ∧
    (validateAge "20").isSome = true ∧
    (validateAge "71").isSome = true ∧
    (validateAge "abc").isSome = true ∧
    (validateAge "-5").isSome = true := by
  refine ⟨?_, by decide, by decide, by decide, by decide⟩
  intro s
  unfold validateAge
  cases h : jsParseInt s with
  | none => simp
  | some n =>
    simp only [minAge, maxAge, Option.some.injEq]
    split_ifs with h1 h2 h3 <;> simp <;> omega

/-- C2: `validateTelegram` strips at most one leading `@`, errors whenever
a further `@` remains in the stripped value, and returns `null` exactly
when the stripped value matches `[A-Za-z0-9_]+` with length in `[5, 32]`;
concretely it accepts `"@john_doe99"` and rejects `"a@b"` and `"ab"`. -/
theorem validateTelegram_none_iff_clean_match :
    (∀ s : String,
      ('@' ∈ (cleanTelegram s).data → (validateTelegram s).isSome = true) ∧
      (validateTelegram s = none ↔
        (cleanTelegram s ≠ "" ∧ (cleanTelegram s).data.all telegramChar = true ∧
         5 ≤ (cleanTelegram s).length ∧ (cleanTelegram s).length ≤ 32))) ∧
    validateTelegram "@john_doe99" = none ∧
    (validateTelegram "a@b").isSome = true ∧
    (validateTelegram "ab").isSome = true := by
  refine ⟨?_, by decide, by decide, by decide⟩
  intro s
  constructor
  · intro hat
    have hc : 0 < (cleanTelegram s).data.count '@' := List.count_pos_iff.mpr hat
    unfold validateTelegram
    simp [hc]
  · unfold validateTelegram
    simp only [minTelegramLength, maxTelegramLength]
    by_cases h1 : (cleanTelegram s).data.count '@' > 0
    · rw [if_pos h1]
      refine iff_of_false (by simp) ?_
      rintro ⟨-, hall, -, -⟩
      have := List.all_eq_true.mp hall '@' (List.count_pos_iff.mp h1)
      exact absurd this (by decide)
    · rw [if_neg h1]
      by_cases h2 : (cleanTelegram s ≠ "" ∧ (cleanTelegram s).data.all telegramChar = true)
      · rw [if_neg (not_not_intro h2)]
        by_cases h3 : ((cleanTelegram s).length < 5 ∨ (cleanTelegram s).length > 32)
        · rw [if_pos h3]
          refine iff_of_false (by simp) ?_
          rintro ⟨-, -, hl1, hl2⟩
          omega
        · rw [if_neg h3]
          exact iff_of_true rfl ⟨h2.1, h2.2, by omega, by omega⟩
      · rw [if_pos h2]
        refine iff_of_false (by simp) ?_
        rintro ⟨hne, hall, -, -⟩
        exact h2 ⟨hne, hall⟩

/-- C3: `validatePhone` returns `null` exactly for strings matching
`^\+?\d+$` whose total length is in `[11, 16]`; concretely it accepts
`"+79001234567"` and rejects `"123"` (too short) and `"+1-234-567"`
(invalid characters). -/
theorem validatePhone_none_iff_pattern_length :
    (∀ s : String, validatePhone s = none ↔
      (((s.data ≠ [] ∧ s.data.all Char.isDigit = true) ∨
        (∃ rest, s.data = '+' :: rest ∧ rest ≠ [] ∧ rest.all Char.isDigit = true)) ∧
       11 ≤ s.length ∧ s.length ≤ 16)) ∧
    validatePhone "+79001234567" = none ∧
    (validatePhone "123").isSome = true ∧
    (validatePhone "+1-234-567").isSome = true := by
  refine ⟨?_, by decide, by decide, by decide⟩
  intro s
  unfold validatePhone
  rw [← phoneMatch_iff]
  by_cases h1 : phoneMatch s = true
  · rw [if_neg (not_not_intro h1)]
    by_cases h2 : s.length < 11
    · rw [if_pos h2]
      exact iff_of_false (by simp) (by rintro ⟨-, hl, -⟩; omega)
    · rw [if_neg h2]
      by_cases h3 : s.length > 16
      · rw [if_pos h3]
        exact iff_of_false (by simp) (by rintro ⟨-, -, hl⟩; omega)
      · rw [if_neg h3]
        exact iff_of_true rfl ⟨h1, by omega, by omega⟩
  · rw [if_pos h1]
    exact iff_of_false (by simp) (by rintro ⟨hm, -, -⟩; exact h1 hm)

/-! ## Claim C4 -/

lemma kept_of_mem_phoneCleaned1 (value : String) (c : Char)
    (hc : c ∈ phoneCleaned1 value) : (c.isDigit || c = '+') = true := by
  unfold phoneCleaned1 at hc
  exact (List.mem_filter.mp hc).2

lemma filter_ne_plus_eq_filter_isDigit (l : List Char)
    (h : ∀ c ∈ l, (c.isDigit || c = '+') = true) :
    l.filter (fun c => c ≠ '+') = l.filter Char.isDigit := by
  apply List.filter_congr
  intro c hc
  by_cases hp : c = '+'
  · subst hp
    decide
  · have := h c hc
    simp only [Bool.or_eq_true, decide_eq_true_eq] at this
    rcases this with hd | he
    · simp [hp, hd]
    · exact absurd he hp

lemma filter_isDigit_eq_self_of_no_plus (l : List Char)
    (h : ∀ c ∈ l, (c.isDigit || c = '+') = true) (hp : '+' ∉ l) :
    l.filter Char.isDigit = l := by
  apply List.filter_eq_self.mpr
  intro c hc
  have := h c hc
  simp only [Bool.or_eq_true, decide_eq_true_eq] at this
  rcases this with hd | he
  · exact hd
  · exact absurd (he ▸ hc) hp

lemma jsIndexOf_plus_pos_iff (l : List Char) :
    jsIndexOf l '+' > 0 ↔ ('+' ∈ l ∧ l.head? ≠ some '+') := by
  unfold jsIndexOf
  by_cases hm : '+' ∈ l
  · rw [if_pos hm]
    cases l with
    | nil => simp at hm
    | cons a t =>
      by_cases ha : a = '+'
      · subst ha
        rw [List.indexOf_cons_self]
        simp
      · rw [List.indexOf_cons_ne _ ha]
        simp only [List.head?_cons, ne_eq, Option.some.injEq, hm, true_and]
        constructor
        · intro _ h
          exact ha h
        · intro _
          omega
  · rw [if_neg hm]
    simp [hm]

lemma plus_not_mem_filter_isDigit (l : List Char) : '+' ∉ l.filter Char.isDigit := by
  intro h
  exact absurd (List.of_mem_filter h) (by decide)

/-- Closed form of the cleanup: the result is the digit subsequence of the
kept characters, with a single `+` in front exactly when the first kept
character was a `+`. -/
lemma phoneCleaned_eq (l : List Char) (hkept : ∀ c ∈ l, (c.isDigit || c = '+') = true) :
    phoneCleaned3 (phoneCleaned2 l) =
      (if l.head? = some '+' then '+' :: l.filter Char.isDigit else l.filter Char.isDigit) := by
  have hfilter := filter_ne_plus_eq_filter_isDigit l hkept
  by_cases hidx : jsIndexOf l '+' > 0
  · obtain ⟨hmem, hhead⟩ := (jsIndexOf_plus_pos_iff l).mp hidx
    rw [phoneCleaned2, if_pos hidx, hfilter]
    rw [phoneCleaned3, if_neg (by
      have : (l.filter Char.isDigit).count '+' = 0 :=
        List.count_eq_zero.mpr (plus_not_mem_filter_isDigit l)
      omega)]
    rw [if_neg hhead]
  · rw [phoneCleaned2, if_neg hidx]
    have hsplit := (jsIndexOf_plus_pos_iff l).not.mp hidx
    push_neg at hsplit
    cases hl : l with
    | nil => simp [phoneCleaned3]
    | cons a t =>
      by_cases ha : a = '+'
      · subst ha
        rw [if_pos (show (('+' :: t : List Char).head? = some '+') from rfl)]
        subst hl
        by_cases hcnt : t.count '+' > 0
        · rw [phoneCleaned3, if_pos (by
            rw [List.count_cons_self]
            omega)]
          rw [hfilter]
        · rw [phoneCleaned3, if_neg (by
            rw [List.count_cons_self]
            omega)]
          have hkt : ∀ c ∈ t, (c.isDigit || c = '+') = true := fun c hc =>
            hkept c (List.mem_cons_of_mem _ hc)
          have hnp : '+' ∉ t := by
            intro hmem
            exact absurd (List.count_pos_iff.mpr hmem) (by omega)
          rw [List.filter_cons, if_neg (show ¬(Char.isDigit '+' = true) from by decide)]
          rw [filter_isDigit_eq_self_of_no_plus t hkt hnp]
      · subst hl
        have hnp : '+' ∉ a :: t := by
          intro hmem
          exact absurd (hsplit hmem) (by simp [ha])
        rw [if_neg (by simp [ha])]
        rw [phoneCleaned3, if_neg (by
          have : (a :: t).count '+' = 0 := List.count_eq_zero.mpr hnp
          omega)]
        rw [filter_isDigit_eq_self_of_no_plus _ hkept hnp]

lemma formatPhoneInput_data (s : String) :
    (formatPhoneInput s).data =
      (if (phoneCleaned1 s).head? = some '+'
       then '+' :: (phoneCleaned1 s).filter Char.isDigit
       else (phoneCleaned1 s).filter Char.isDigit) := by
  unfold formatPhoneInput
  exact phoneCleaned_eq _ (kept_of_mem_phoneCleaned1 s)

lemma phoneCleaned1_filter_isDigit (s : String) :
    (phoneCleaned1 s).filter Char.isDigit = s.data.filter Char.isDigit := by
  unfold phoneCleaned1
  rw [List.filter_filter]
  apply List.filter_congr
  intro c _
  by_cases hd : c.isDigit
  · simp [hd]
  · simp [hd]

/-- C4: for every input string, `formatPhoneInput` produces a value in
which every character is a digit or `+`, every character after the first
is a digit (so a `+` can occur only as the first character), at most one
`+` remains (duplicates collapse to the single leading one), and the
digit subsequence of the input is preserved. The first two conjuncts are
exactly a whole-string match of `^\+?\d*$`. -/
theorem formatPhoneInput_normalizes :
    ∀ s : String,
      (formatPhoneInput s).data.all (fun c => c.isDigit || c = '+') = true ∧
      (formatPhoneInput s).data.tail.all Char.isDigit = true ∧
      (formatPhoneInput s).data.count '+' ≤ 1 ∧
      (formatPhoneInput s).data.filter Char.isDigit = s.data.filter Char.isDigit := by
  intro s
  rw [formatPhoneInput_data s]
  have hdig : ∀ c ∈ (phoneCleaned1 s).filter Char.isDigit, c.isDigit = true := fun c hc =>
    List.of_mem_filter hc
  have hcnt : ((phoneCleaned1 s).filter Char.isDigit).count '+' = 0 :=
    List.count_eq_zero.mpr (plus_not_mem_filter_isDigit _)
  have hall : ((phoneCleaned1 s).filter Char.isDigit).all (fun c => c.isDigit || c = '+') = true :=
    List.all_eq_true.mpr (fun c hc => by simp [hdig c hc])
  have halldig : ((phoneCleaned1 s).filter Char.isDigit).all Char.isDigit = true :=
    List.all_eq_true.mpr (fun c hc => hdig c hc)
  have hfd : ((phoneCleaned1 s).filter Char.isDigit).filter Char.isDigit
      = s.data.filter Char.isDigit := by
    rw [List.filter_eq_self.mpr hdig]
    exact phoneCleaned1_filter_isDigit s
  by_cases hh : (phoneCleaned1 s).head? = some '+'
  · rw [if_pos hh]
    refine ⟨?_, ?_, ?_, ?_⟩
    · simp only [List.all_cons]
      rw [hall]
      decide
    · exact halldig
    · rw [List.count_cons_self]
      omega
    · rw [List.filter_cons]
      simp only [show (Char.isDigit '+') = false from rfl, cond_false]
      exact hfd
  · rw [if_neg hh]
    refine ⟨hall, ?_, by omega, hfd⟩
    exact List.all_eq_true.mpr (fun c hc =>
      List.all_eq_true.mp halldig c (List.mem_of_mem_tail hc))

end FormHandler

namespace FormHandler

/-! ## Helper lemmas for the submission flow -/

lemma submitHasErrors_validationMark (st : Elements) :
    submitHasErrors (validationMark st) = submitHasErrors st := rfl

lemma submitForm_errorFlags (tok : Option String) (o : FetchOutcome) (st : Elements) :
    (submitForm tok o st).state.nameErrorShown = st.nameErrorShown ∧
    (submitForm tok o st).state.ageErrorShown = st.ageErrorShown ∧
    (submitForm tok o st).state.telegramErrorShown = st.telegramErrorShown ∧
    (submitForm tok o st).state.phoneErrorShown = st.phoneErrorShown := by
  unfold submitForm
  cases o with
  | networkError m => simp [showFormError, resetSubmitButton]
  | response ok body =>
    cases ok with
    | false => simp [showFormError, resetSubmitButton]
    | true =>
      by_cases hst : body.jsonStatus = "ok" <;>
        simp [hst, showFormError, resetSubmitButton, showSuccess]

lemma handleSubmit_errorFlags (env : Env) (st : Elements) :
    (handleSubmit env st).state.nameErrorShown = (validationMark st).nameErrorShown ∧
    (handleSubmit env st).state.ageErrorShown = (validationMark st).ageErrorShown ∧
    (handleSubmit env st).state.telegramErrorShown = (validationMark st).telegramErrorShown ∧
    (handleSubmit env st).state.phoneErrorShown = (validationMark st).phoneErrorShown := by
  unfold handleSubmit
  cases he : submitHasErrors (validationMark st) with
  | true => simp [he]
  | false =>
    cases hg : env.grecaptchaDefined with
    | false =>
      simp only [he, hg, Bool.false_eq_true, if_false]
      exact submitForm_errorFlags none env.fetchOutcome _
    | true =>
      cases hr : env.recaptchaResult with
      | ok tok =>
        simp only [he, hg, hr, Bool.false_eq_true, if_false, if_true]
        exact submitForm_errorFlags (some tok) env.fetchOutcome _
      | error e =>
        simp [he, hg, hr, showFormError, resetSubmitButton]

lemma jsOr_some_jsOr (a : Option String) (b c : String) (hb : ¬ b = "") :
    jsOr (some (jsOr a b)) c = jsOr a b := by
  unfold jsOr
  cases a with
  | none => simp [hb]
  | some d => by_cases hd : d = "" <;> simp [hd, hb]

end FormHandler

namespace FormHandler

/-! ## Claim C5 -/

/-- C5: exactly one contact validator runs per submission, selected by the
checked `contactType` radio — with Telegram selected `hasErrors` does not
depend on the phone field (an empty phone cannot block submission) and
the phone field's inline error is never shown, and symmetrically with
Phone selected; and after every `toggleContactField` exactly one of the
two `required` flags is `true`, the one matching the checked radio. -/
theorem contact_validation_exclusive :
    (∀ (st : Elements) (p : String), st.contactType = ContactType.telegram →
      submitHasErrors { st with phoneValue := p } = submitHasErrors st) ∧
    (∀ (st : Elements) (t : String), st.contactType = ContactType.phone →
      submitHasErrors { st with telegramValue := t } = submitHasErrors st) ∧
    (∀ (env : Env) (st : Elements), st.contactType = ContactType.telegram →
      (handleSubmit env st).state.phoneErrorShown = false) ∧
    (∀ (env : Env) (st : Elements), st.contactType = ContactType.phone →
      (handleSubmit env st).state.telegramErrorShown = false) ∧
    (∀ st : Elements,
      (toggleContactField st).telegramRequired ≠ (toggleContactField st).phoneRequired ∧
      ((toggleContactField st).telegramRequired = true ↔
        st.contactType = ContactType.telegram)) := by
  refine ⟨?_, ?_, ?_, ?_, ?_⟩
  · intro st p h
    simp [submitHasErrors, contactError, h]
  · intro st t h
    simp [submitHasErrors, contactError, h]
  · intro env st h
    rw [(handleSubmit_errorFlags env st).2.2.2]
    simp [validationMark, h]
  · intro env st h
    rw [(handleSubmit_errorFlags env st).2.2.1]
    simp [validationMark, h]
  · intro st
    unfold toggleContactField
    cases h : st.contactType <;> simp

theorem contact_validation_exclusive_witness :
    submitHasErrors { sampleValid with phoneValue := "" } = submitHasErrors sampleValid ∧
    submitHasErrors { samplePhoneContact with telegramValue := "" } =
      submitHasErrors samplePhoneContact ∧
    (handleSubmit envNoCaptcha sampleValid).state.phoneErrorShown = false ∧
    (handleSubmit envNoCaptcha samplePhoneContact).state.telegramErrorShown = false ∧
    (toggleContactField sampleValid).telegramRequired ≠
      (toggleContactField sampleValid).phoneRequired :=
  ⟨contact_validation_exclusive.1 sampleValid "" rfl,
   contact_validation_exclusive.2.1 samplePhoneContact "" rfl,
   contact_validation_exclusive.2.2.1 envNoCaptcha sampleValid rfl,
   contact_validation_exclusive.2.2.2.1 envNoCaptcha samplePhoneContact rfl,
   (contact_validation_exclusive.2.2.2.2 sampleValid).1⟩

end FormHandler

namespace FormHandler

/-! ## Claim C6 -/

/-- C6: whenever any validator of the active fields (name, age, or the
selected contact field) errors, `handleSubmit` marks the offending
fields, adds the shake class (scheduling its removal), and returns with
the submit button still enabled and its label untouched, without
executing the bot-mitigation script and without any network request. -/
theorem invalid_submission_blocks_locally :
    ∀ (env : Env) (st : Elements),
      st.submitDisabled = false →
      ((validateName (jsTrim st.nameValue)).isSome = true ∨
       (validateAge st.ageValue).isSome = true ∨
       (contactError st).isSome = true) →
      (handleSubmit env st).state.shakeClass = true ∧
      (handleSubmit env st).pending = some TimeoutCB.removeShake ∧
      (handleSubmit env st).state.submitDisabled = false ∧
      (handleSubmit env st).state.submitLabel = st.submitLabel ∧
      (handleSubmit env st).recaptchaExecuted = false ∧
      (handleSubmit env st).networkCalled = false ∧
      (handleSubmit env st).payload = none ∧
      ((validateName (jsTrim st.nameValue)).isSome = true →
        (handleSubmit env st).state.nameErrorShown = true) ∧
      ((validateAge st.ageValue).isSome = true →
        (handleSubmit env st).state.ageErrorShown = true) ∧
      (st.contactType = ContactType.telegram →
        (validateTelegram (jsTrim st.telegramValue)).isSome = true →
        (handleSubmit env st).state.telegramErrorShown = true) ∧
      (st.contactType = ContactType.phone →
        (validatePhone (jsTrim st.phoneValue)).isSome = true →
        (handleSubmit env st).state.phoneErrorShown = true) := by
  intro env st hdis hvals
  have he : submitHasErrors (validationMark st) = true := by
    rw [submitHasErrors_validationMark]
    rcases hvals with h | h | h <;> simp [submitHasErrors, h]
  have hred : handleSubmit env st =
      { state := { validationMark st with shakeClass := true },
        pending := some TimeoutCB.removeShake, recaptchaExecuted := false,
        networkCalled := false, payload := none } := by
    unfold handleSubmit
    simp only [he]
    rw [if_pos trivial]
  refine ⟨?_, ?_, ?_, ?_, ?_, ?_, ?_, ?_, ?_, ?_, ?_⟩ <;> rw [hred] <;> intros <;>
    simp_all [validationMark]

theorem invalid_submission_blocks_locally_witness :
    (handleSubmit envNoCaptcha sampleInvalidAge).state.shakeClass = true ∧
    (handleSubmit envNoCaptcha sampleInvalidAge).pending = some TimeoutCB.removeShake ∧
    (handleSubmit envNoCaptcha sampleInvalidAge).state.submitDisabled = false ∧
    (handleSubmit envNoCaptcha sampleInvalidAge).state.submitLabel =
      sampleInvalidAge.submitLabel ∧
    (handleSubmit envNoCaptcha sampleInvalidAge).recaptchaExecuted = false ∧
    (handleSubmit envNoCaptcha sampleInvalidAge).networkCalled = false ∧
    (handleSubmit envNoCaptcha sampleInvalidAge).payload = none ∧
    ((validateName (jsTrim sampleInvalidAge.nameValue)).isSome = true →
      (handleSubmit envNoCaptcha sampleInvalidAge).state.nameErrorShown = true) ∧
    ((validateAge sampleInvalidAge.ageValue).isSome = true →
      (handleSubmit envNoCaptcha sampleInvalidAge).state.ageErrorShown = true) ∧
    (sampleInvalidAge.contactType = ContactType.telegram →
      (validateTelegram (jsTrim sampleInvalidAge.telegramValue)).isSome = true →
      (handleSubmit envNoCaptcha sampleInvalidAge).state.telegramErrorShown = true) ∧
    (sampleInvalidAge.contactType = ContactType.phone →
      (validatePhone (jsTrim sampleInvalidAge.phoneValue)).isSome = true →
      (handleSubmit envNoCaptcha sampleInvalidAge).state.phoneErrorShown = true) :=
  invalid_submission_blocks_locally envNoCaptcha sampleInvalidAge rfl
    (Or.inr (Or.inl (by decide)))

end FormHandler

namespace FormHandler

/-! ## Claims C7 and C8 -/

/-- C7: `submitForm` treats a non-2xx status, or a 2xx response whose
`status` differs from `"ok"`, as failure: the error panel is shown with
the server-supplied message (`detail` for HTTP errors, `message` for a
rejected payload) or the generic fallback, and after the error display
timeout the form is visible again with the submit control re-enabled and
its original label restored. -/
theorem submitForm_failure_shows_error_and_recovers :
    ∀ (tok : Option String) (st : Elements) (ok : Bool) (body : ResponseBody),
      (ok = false ∨ body.jsonStatus ≠ "ok") →
      (submitForm tok (.response ok body) st).state.errorHidden = false ∧
      (submitForm tok (.response ok body) st).state.formHidden = true ∧
      (submitForm tok (.response ok body) st).state.errorText =
        (if ok then jsOr body.message "Проверка капчи не пройдена."
         else jsOr body.detail "Ошибка сервера") ∧
      (submitForm tok (.response ok body) st).pending = some TimeoutCB.errorReset ∧
      (runTimeout .errorReset (submitForm tok (.response ok body) st).state).formHidden
        = false ∧
      (runTimeout .errorReset (submitForm tok (.response ok body) st).state).submitDisabled
        = false ∧
      (runTimeout .errorReset (submitForm tok (.response ok body) st).state).submitLabel
        = BtnLabel.original ∧
      (runTimeout .errorReset (submitForm tok (.response ok body) st).state).errorHidden
        = true := by
  intro tok st ok body hfail
  cases ok with
  | false =>
    unfold submitForm
    simp [showFormError, resetSubmitButton, runTimeout, showFormErrorTimeout,
      jsOr_some_jsOr body.detail "Ошибка сервера" "Ошибка соединения с сервером." (by decide)]
  | true =>
    have hst : ¬ body.jsonStatus = "ok" := by
      rcases hfail with h | h
      · exact absurd h (by decide)
      · exact h
    unfold submitForm
    simp [hst, showFormError, resetSubmitButton, runTimeout, showFormErrorTimeout]

theorem submitForm_failure_witness :
    (submitForm (some "tok") (.response false bodyRejected) sampleValid).state.errorHidden
      = false ∧
    (submitForm (some "tok") (.response false bodyRejected) sampleValid).state.formHidden
      = true ∧
    (submitForm (some "tok") (.response false bodyRejected) sampleValid).state.errorText =
      (if false then jsOr bodyRejected.message "Проверка капчи не пройдена."
       else jsOr bodyRejected.detail "Ошибка сервера") ∧
    (submitForm (some "tok") (.response false bodyRejected) sampleValid).pending
      = some TimeoutCB.errorReset ∧
    (runTimeout .errorReset
      (submitForm (some "tok") (.response false bodyRejected) sampleValid).state).formHidden
      = false ∧
    (runTimeout .errorReset
      (submitForm (some "tok") (.response false bodyRejected) sampleValid).state).submitDisabled
      = false ∧
    (runTimeout .errorReset
      (submitForm (some "tok") (.response false bodyRejected) sampleValid).state).submitLabel
      = BtnLabel.original ∧
    (runTimeout .errorReset
      (submitForm (some "tok") (.response false bodyRejected) sampleValid).state).errorHidden
      = true :=
  submitForm_failure_shows_error_and_recovers (some "tok") sampleValid false bodyRejected
    (Or.inl rfl)

/-- C8: on a 2xx response whose `status` is `"ok"`, the form is hidden and
the success panel shown; the success-display timeout then hides the
panel, resets every field to its default, clears the per-field error
displays, re-enables the submit control with its original label, restores
the default (Telegram) contact-method view, and shows the form again. -/
theorem submitForm_success_shows_panel_and_resets :
    ∀ (tok : Option String) (st : Elements) (body : ResponseBody),
      body.jsonStatus = "ok" →
      (submitForm tok (.response true body) st).state.formHidden = true ∧
      (submitForm tok (.response true body) st).state.successHidden = false ∧
      (submitForm tok (.response true body) st).pending = some TimeoutCB.successReset ∧
      (runTimeout .successReset
        (submitForm tok (.response true body) st).state).successHidden = true ∧
      (runTimeout .successReset
        (submitForm tok (.response true body) st).state).nameValue = "" ∧
      (runTimeout .successReset
        (submitForm tok (.response true body) st).state).ageValue = "" ∧
      (runTimeout .successReset
        (submitForm tok (.response true body) st).state).telegramValue = "" ∧
      (runTimeout .successReset
        (submitForm tok (.response true body) st).state).phoneValue = "" ∧
      (runTimeout .successReset
        (submitForm tok (.response true body) st).state).experienceValue
        = defaultExperienceValue ∧
      (runTimeout .successReset
        (submitForm tok (.response true body) st).state).nameErrorShown = false ∧
      (runTimeout .successReset
        (submitForm tok (.response true body) st).state).ageErrorShown = false ∧
      (runTimeout .successReset
        (submitForm tok (.response true body) st).state).telegramErrorShown = false ∧
      (runTimeout .successReset
        (submitForm tok (.response true body) st).state).phoneErrorShown = false ∧
      (runTimeout .successReset
        (submitForm tok (.response true body) st).state).submitDisabled = false ∧
      (runTimeout .successReset
        (submitForm tok (.response true body) st).state).submitLabel = BtnLabel.original ∧
      (runTimeout .successReset
        (submitForm tok (.response true body) st).state).contactType
        = ContactType.telegram ∧
      (runTimeout .successReset
        (submitForm tok (.response true body) st).state).telegramRequired = true ∧
      (runTimeout .successReset
        (submitForm tok (.response true body) st).state).phoneRequired = false ∧
      (runTimeout .successReset
        (submitForm tok (.response true body) st).state).telegramFieldHidden = false ∧
      (runTimeout .successReset
        (submitForm tok (.response true body) st).state).phoneFieldHidden = true ∧
      (runTimeout .successReset
        (submitForm tok (.response true body) st).state).formHidden = false := by
  intro tok st body hst
  unfold submitForm
  simp [hst, showSuccess, runTimeout, showSuccessTimeout, formReset,
    resetSubmitButton, toggleContactField]

theorem submitForm_success_witness :
    (submitForm (some "tok") (.response true bodyOk) sampleValid).state.formHidden = true ∧
    (submitForm (some "tok") (.response true bodyOk) sampleValid).state.successHidden
      = false ∧
    (submitForm (some "tok") (.response true bodyOk) sampleValid).pending
      = some TimeoutCB.successReset ∧
    (runTimeout .successReset
      (submitForm (some "tok") (.response true bodyOk) sampleValid).state).successHidden
      = true ∧
    (runTimeout .successReset
      (submitForm (some "tok") (.response true bodyOk) sampleValid).state).nameValue = "" ∧
    (runTimeout .successReset
      (submitForm (some "tok") (.response true bodyOk) sampleValid).state).ageValue = "" ∧
    (runTimeout .successReset
      (submitForm (some "tok") (.response true bodyOk) sampleValid).state).telegramValue
      = "" ∧
    (runTimeout .successReset
      (submitForm (some "tok") (.response true bodyOk) sampleValid).state).phoneValue
      = "" ∧
    (runTimeout .successReset
      (submitForm (some "tok") (.response true bodyOk) sampleValid).state).experienceValue
      = defaultExperienceValue ∧
    (runTimeout .successReset
      (submitForm (some "tok") (.response true bodyOk) sampleValid).state).nameErrorShown
      = false ∧
    (runTimeout .successReset
      (submitForm (some "tok") (.response true bodyOk) sampleValid).state).ageErrorShown
      = false ∧
    (runTimeout .successReset
      (submitForm (some "tok") (.response true bodyOk) sampleValid).state).telegramErrorShown
      = false ∧
    (runTimeout .successReset
      (submitForm (some "tok") (.response true bodyOk) sampleValid).state).phoneErrorShown
      = false ∧
    (runTimeout .successReset
      (submitForm (some "tok") (.response true bodyOk) sampleValid).state).submitDisabled
      = false ∧
    (runTimeout .successReset
      (submitForm (some "tok") (.response true bodyOk) sampleValid).state).submitLabel
      = BtnLabel.original ∧
    (runTimeout .successReset
      (submitForm (some "tok") (.response true bodyOk) sampleValid).state).contactType
      = ContactType.telegram ∧
    (runTimeout .successReset
      (submitForm (some "tok") (.response true bodyOk) sampleValid).state).telegramRequired
      = true ∧
    (runTimeout .successReset
      (submitForm (some "tok") (.response true bodyOk) sampleValid).state).phoneRequired
      = false ∧
    (runTimeout .successReset
      (submitForm (some "tok") (.response true bodyOk) sampleValid).state).telegramFieldHidden
      = false ∧
    (runTimeout .successReset
      (submitForm (some "tok") (.response true bodyOk) sampleValid).state).phoneFieldHidden
      = true ∧
    (runTimeout .successReset
      (submitForm (some "tok") (.response true bodyOk) sampleValid).state).formHidden
      = false :=
  submitForm_success_shows_panel_and_resets (some "tok") sampleValid bodyOk rfl

end FormHandler

namespace FormHandler

/-! ## Claims C9 and C10 -/

/-- C9: if the bot-mitigation script is loaded but `grecaptcha.execute`
rejects, `handleSubmit` (after a passing validation) shows the generic
captcha-error panel, re-enables the submit control with its original
label, and never calls the network endpoint for that submission. -/
theorem recaptcha_failure_no_network :
    ∀ (env : Env) (st : Elements) (e : String),
      env.grecaptchaDefined = true →
      env.recaptchaResult = Except.error e →
      submitHasErrors st = false →
      (handleSubmit env st).networkCalled = false ∧
      (handleSubmit env st).payload = none ∧
      (handleSubmit env st).state.errorHidden = false ∧
      (handleSubmit env st).state.formHidden = true ∧
      (handleSubmit env st).state.errorText =
        "Ошибка проверки капчи. Попробуй обновить страницу." ∧
      (handleSubmit env st).state.submitDisabled = false ∧
      (handleSubmit env st).state.submitLabel = BtnLabel.original ∧
      (handleSubmit env st).pending = some TimeoutCB.errorReset := by
  intro env st e hg hr he
  have he' : submitHasErrors (validationMark st) = false := by
    rw [submitHasErrors_validationMark]
    exact he
  unfold handleSubmit
  simp [he', hg, hr, showFormError, resetSubmitButton]

theorem recaptcha_failure_witness :
    (handleSubmit envCaptchaFail sampleValid).networkCalled = false ∧
    (handleSubmit envCaptchaFail sampleValid).payload = none ∧
    (handleSubmit envCaptchaFail sampleValid).state.errorHidden = false ∧
    (handleSubmit envCaptchaFail sampleValid).state.formHidden = true ∧
    (handleSubmit envCaptchaFail sampleValid).state.errorText =
      "Ошибка проверки капчи. Попробуй обновить страницу." ∧
    (handleSubmit envCaptchaFail sampleValid).state.submitDisabled = false ∧
    (handleSubmit envCaptchaFail sampleValid).state.submitLabel = BtnLabel.original ∧
    (handleSubmit envCaptchaFail sampleValid).pending = some TimeoutCB.errorReset :=
  recaptcha_failure_no_network envCaptchaFail sampleValid "timeout" rfl rfl (by decide)

/-- C10: if client-side validation passes but the `grecaptcha` global is
undefined at submit time, the submission is not blocked: `submitForm`
runs with a `null` token, the POST is sent, and the payload's
`recaptchaToken` field is `null`. -/
theorem missing_grecaptcha_submits_null_token :
    ∀ (env : Env) (st : Elements),
      env.grecaptchaDefined = false →
      submitHasErrors st = false →
      (handleSubmit env st).networkCalled = true ∧
      (handleSubmit env st).recaptchaExecuted = false ∧
      Option.map Payload.recaptchaToken (handleSubmit env st).payload = some none := by
  intro env st hg he
  have he' : submitHasErrors (validationMark st) = false := by
    rw [submitHasErrors_validationMark]
    exact he
  unfold handleSubmit
  simp only [he', hg, Bool.false_eq_true, if_false]
  refine ⟨trivial, trivial, ?_⟩
  have hp : (submitForm none env.fetchOutcome
      { validationMark st with submitDisabled := true, submitLabel := BtnLabel.loading }).payload
      = buildPayload none
        { validationMark st with submitDisabled := true, submitLabel := BtnLabel.loading } := by
    unfold submitForm
    cases ho : env.fetchOutcome with
    | networkError m => rfl
    | response ok body =>
      cases ok with
      | false => simp
      | true => by_cases hst : body.jsonStatus = "ok" <;> simp [hst]
  simp only [Option.map, hp]
  unfold buildPayload
  cases hct : (validationMark st).contactType <;> simp

theorem missing_grecaptcha_witness :
    (handleSubmit envNoCaptcha sampleValid).networkCalled = true ∧
    (handleSubmit envNoCaptcha sampleValid).recaptchaExecuted = false ∧
    Option.map Payload.recaptchaToken (handleSubmit envNoCaptcha sampleValid).payload
      = some none :=
  missing_grecaptcha_submits_null_token envNoCaptcha sampleValid rfl (by decide)

end FormHandler

namespace FormHandler

theorem validateTelegram_embedded_at_witness :
    (validateTelegram "a@b").isSome = true :=
  (validateTelegram_none_iff_clean_match.1 "a@b").1 (by decide)

end FormHandler
